import Mathlib

/-
Verification of the spec-synthesis and reconciliation core of the
artillery-operator controller (src/controllers/job.go).

Shallow embedding conventions:
  * Go maps `map[ResourceName]Quantity` become association lists
    (`List (ResourceName × Quantity)`); a possibly-nil Go map becomes
    `Option ResourceList` with `none` for the nil map.
  * `resource.Quantity` values are kept as their literal strings.
  * Pointer-typed optional fields of the custom resource become `Option`.
  * The two cluster calls performed by `ensureJob` (get, create) are
    modelled by oracle outcomes, and also by a concrete cluster-state
    transition system for the sequential idempotence claim.
-/

set_option autoImplicit false

namespace ArtilleryOperator

abbrev ResourceName := String

abbrev Quantity := String

/-- Association-list stand-in for the Go map `corev1.ResourceList`. -/
abbrev ResourceList := List (ResourceName × Quantity)

/-- First-match key lookup in a resource list (Go map indexing `dest[k]`). -/
def lookupKey (k : ResourceName) : ResourceList → Option Quantity
  | [] => none
  | (k', v) :: rest => if k' = k then some v else lookupKey k rest

/-- One iteration of the merge loop body of `MergePreservingExistingKeys`:
`if _, exists := dest[k]; !exists { dest[k] = v }`. -/
def addIfAbsent (dest : ResourceList) (kv : ResourceName × Quantity) : ResourceList :=
  match lookupKey kv.1 dest with
  | some _ => dest
  | none => dest ++ [kv]

/-- Embedding of `MergePreservingExistingKeys` (src/controllers/job.go lines 34-49).
A nil `dest` with nil `src` returns nil; a nil `dest` is replaced by a fresh
empty map before the loop; the loop copies each key of `src` into `dest`
only when `dest` does not already bind it. -/
def MergePreservingExistingKeys (dest src : Option ResourceList) :
    Option ResourceList :=
  match dest, src with
  | none, none => none
  | none, some s => some (s.foldl addIfAbsent [])
  | some d, none => some d
  | some d, some s => some (s.foldl addIfAbsent d)

/-- Lookup on a possibly-nil resource list; the nil map binds no key. -/
def olookup (m : Option ResourceList) (k : ResourceName) : Option Quantity :=
  match m with
  | none => none
  | some l => lookupKey k l

theorem lookupKey_append (k : ResourceName) (a b : ResourceList) :
    lookupKey k (a ++ b) =
      match lookupKey k a with
      | some q => some q
      | none => lookupKey k b := by
  induction a with
  | nil => simp [lookupKey]
  | cons hd tl ih =>
    obtain ⟨k', v⟩ := hd
    by_cases h : k' = k <;> simp [lookupKey, h, ih]

theorem addIfAbsent_of_present {acc : ResourceList} {kv : ResourceName × Quantity}
    {q : Quantity} (h : lookupKey kv.1 acc = some q) :
    addIfAbsent acc kv = acc := by
  unfold addIfAbsent; rw [h]

theorem addIfAbsent_of_absent {acc : ResourceList} {kv : ResourceName × Quantity}
    (h : lookupKey kv.1 acc = none) :
    addIfAbsent acc kv = acc ++ [kv] := by
  unfold addIfAbsent; rw [h]

theorem foldl_addIfAbsent_present (s : ResourceList) (k : ResourceName)
    (q : Quantity) :
    ∀ acc : ResourceList, lookupKey k acc = some q →
      lookupKey k (s.foldl addIfAbsent acc) = some q := by
  induction s with
  | nil => intro acc h; simpa using h
  | cons hd tl ih =>
    intro acc h
    simp only [List.foldl_cons]
    apply ih
    cases hfind : lookupKey hd.1 acc with
    | some _ => rw [addIfAbsent_of_present hfind]; exact h
    | none => rw [addIfAbsent_of_absent hfind, lookupKey_append, h]

theorem foldl_addIfAbsent_absent (s : ResourceList) (k : ResourceName) :
    ∀ acc : ResourceList, lookupKey k acc = none →
      lookupKey k (s.foldl addIfAbsent acc) = lookupKey k s := by
  induction s with
  | nil => intro acc h; simpa using h
  | cons hd tl ih =>
    intro acc h
    obtain ⟨k', v⟩ := hd
    simp only [List.foldl_cons]
    by_cases hk : k' = k
    · subst hk
      rw [addIfAbsent_of_absent h]
      have hacc' : lookupKey k' (acc ++ [(k', v)]) = some v := by
        rw [lookupKey_append, h]; simp [lookupKey]
      rw [foldl_addIfAbsent_present tl k' v _ hacc']
      simp [lookupKey]
    · have hstep : lookupKey k (addIfAbsent acc (k', v)) = none := by
        cases hfind : lookupKey k' acc with
        | some q => rw [addIfAbsent_of_present hfind]; exact h
        | none =>
          rw [addIfAbsent_of_absent hfind, lookupKey_append, h]
          simp [lookupKey, hk]
      rw [ih _ hstep]
      simp [lookupKey, hk]

/-- Go `*ResourceRequirements` content: both maps may be nil. -/
structure ResourceRequirements where
  limits : Option ResourceList
  requests : Option ResourceList
deriving DecidableEq, Inhabited

/-- The `{name, mountPoint}` pair of the `secretMount` field. -/
structure SecretMount where
  name : String
  mountPoint : String
deriving DecidableEq, Inhabited

/-- Modelled from the spec: the desired-state schema (api/v1alpha1 LoadTestSpec
is not under src/). Fields and optionality follow section 6 of the spec:
count is an integer at least 0; image, secretEnvSource and usersFile are
strings whose empty value means absent; args, resources and secretMount are
nilable. -/
structure LoadTestSpec where
  count : Nat
  image : String
  args : Option (List String)
  resources : Option ResourceRequirements
  secretEnvSource : String
  secretMount : Option SecretMount
  usersFile : String
deriving DecidableEq, Inhabited

/-- The desired-state object: identity plus spec. -/
structure LoadTest where
  name : String
  ns : String
  spec : LoadTestSpec
deriving DecidableEq, Inhabited

/-- An environment-variable value: a literal string, or a downward-API
field reference resolved by the platform at pod start. -/
inductive EnvVarValue where
  | lit (value : String)
  | fieldRef (fieldPath : String)
deriving DecidableEq, Inhabited

structure EnvVar where
  name : String
  value : EnvVarValue
deriving DecidableEq, Inhabited

/-- `corev1.EnvFromSource` restricted to what the builder emits: a secret
reference by name. -/
structure EnvFromSource where
  secretRef : String
deriving DecidableEq, Inhabited

structure VolumeMount where
  name : String
  mountPath : String
deriving DecidableEq, Inhabited

/-- `corev1.Volume` restricted to what the builder emits: a secret-backed
volume. -/
structure Volume where
  name : String
  secretName : String
deriving DecidableEq, Inhabited

structure Container where
  name : String
  image : String
  imagePullPolicy : String
  resources : ResourceRequirements
  args : List String
  envFrom : List EnvFromSource
  env : List EnvVar
  volumeMounts : List VolumeMount
deriving DecidableEq, Inhabited

structure PodSpec where
  containers : List Container
  restartPolicy : String
  volumes : List Volume
deriving DecidableEq, Inhabited

structure PodTemplate where
  labels : List (String × String)
  spec : PodSpec
deriving DecidableEq, Inhabited

/-- The built execution unit (`batchv1.Job`), restricted to the fields the
builder sets. Parallelism, completions and backoffLimit are the values of
the int32 cells the source allocates. -/
structure Job where
  name : String
  ns : String
  labels : List (String × String)
  parallelism : Int
  completions : Int
  completionMode : String
  backoffLimit : Int
  template : PodTemplate
deriving DecidableEq, Inhabited

/-- Go conversion `int32(n)` for a non-negative integer n: reduce modulo
2^32 and reinterpret in two-complement. -/
def toInt32 (n : Nat) : Int :=
  if n % 2 ^ 32 < 2 ^ 31 then ((n % 2 ^ 32 : Nat) : Int)
  else ((n % 2 ^ 32 : Nat) : Int) - 2 ^ 32

/-- Modelled from the spec: the fixed system default worker image (the
constant `WorkerImage` of the controllers package is not under src/). The
concrete value is a stand-in; every claim uses it only by name. -/
def WorkerImage : String := "artilleryio/artillery:latest"

/-- Embedding of `labels` (src/controllers/job.go lines 231-237). -/
def labels (v : LoadTest) (component : String) : List (String × String) :=
  [("artillery.io/test-name", v.name),
   ("artillery.io/component", component),
   ("artillery.io/part-of", "loadtest")]

/-- The base environment entry: WORKER_ID bound to the pod name through the
downward API. -/
def workerIdEnvVar : EnvVar :=
  { name := "WORKER_ID", value := EnvVarValue.fieldRef "metadata.name" }

/-- Embedding of the builder `job` (src/controllers/job.go lines 91-227).
The telemetry collaborator `r.TelemetryConfig.ToK8sEnvVar()` is opaque to
this core and passed in as the ordered list of environment entries it
returns. The ownership back-reference set by the external
`SetControllerReference` call is outside the modelled fields. -/
def job (telemetry : List EnvVar) (v : LoadTest) : Job :=
  let pc : Int × Int :=
    if v.spec.count > 0 then (toInt32 v.spec.count, toInt32 v.spec.count)
    else (1, 1)
  let img : String := if v.spec.image ≠ "" then v.spec.image else WorkerImage
  let defaultResources : ResourceRequirements :=
    { limits := some [("cpu", "2"), ("memory", "4Gi")],
      requests := some [("cpu", "2"), ("memory", "2Gi")] }
  let resources : ResourceRequirements :=
    match v.spec.resources with
    | none => defaultResources
    | some rr =>
      let r1 : ResourceRequirements :=
        match rr.limits with
        | some _ =>
          { defaultResources with
            limits := MergePreservingExistingKeys rr.limits defaultResources.limits }
        | none => defaultResources
      match rr.requests with
      | some _ =>
        { r1 with
          requests := MergePreservingExistingKeys rr.requests r1.requests }
      | none => r1
  let args : List String :=
    match v.spec.args with
    | some a => a
    | none => ["help"]
  let secrets : List EnvFromSource :=
    if v.spec.secretEnvSource ≠ "" then [{ secretRef := v.spec.secretEnvSource }]
    else []
  let vme : List Volume × List VolumeMount × List EnvVar :=
    match v.spec.secretMount with
    | some sm =>
      ([{ name := sm.name, secretName := sm.name }],
       [{ name := sm.name, mountPath := sm.mountPoint }],
       [workerIdEnvVar] ++
         [{ name := "USERS_PAYLOAD_PATH",
            value := EnvVarValue.lit (sm.mountPoint ++ "/" ++ v.spec.usersFile) }])
    | none => ([], [], [workerIdEnvVar])
  { name := v.name
    ns := v.ns
    labels := labels v "loadtest-worker-master"
    parallelism := pc.1
    completions := pc.2
    completionMode := "Indexed"
    backoffLimit := 0
    template :=
      { labels := labels v "loadtest-worker"
        spec :=
          { containers :=
              [{ name := v.name
                 image := img
                 imagePullPolicy := "IfNotPresent"
                 resources := resources
                 args := args
                 envFrom := secrets
                 env := vme.2.2 ++ telemetry
                 volumeMounts := vme.2.1 }]
            restartPolicy := "Never"
            volumes := vme.1 } } }

/-- The single container of a built unit. -/
def theContainer (j : Job) : Container :=
  j.template.spec.containers.headD default

/-- Outcome of the cluster Get call in `ensureJob`: the job was found
(err = nil), the lookup failed with a not-found error, or it failed with
any other error. -/
inductive GetResult where
  | found (j : Job)
  | errNotFound
  | errOther (msg : String)
deriving DecidableEq, Inhabited

/-- Outcome of the cluster Create call. -/
inductive CreateResult where
  | created
  | createFailed (msg : String)
deriving DecidableEq, Inhabited

/-- What one `ensureJob` call returns and does: the reconcile result pointer
(`some ()` for the non-nil pointer to an empty Result, `none` for nil), the
returned error,
the job submitted to Create if Create was called, and whether the Created
event was recorded. -/
structure EnsureOutcome where
  result : Option Unit
  error : Option String
  submitted : Option Job
  eventEmitted : Bool
deriving DecidableEq, Inhabited

/-- Embedding of `ensureJob` (src/controllers/job.go lines 53-88) against
oracle outcomes of the two cluster calls: `g` is what Get returns for the
identity of `j`, and `c` is what Create would return if called. Mirrors the
source branch for branch: not-found drives creation, any other Get error
and any Create error are returned to the caller unmodified together with a
non-nil empty reconcile result, and both success paths return nil, nil. -/
def ensureJob (j : Job) (g : GetResult) (c : CreateResult) : EnsureOutcome :=
  match g with
  | GetResult.errNotFound =>
    match c with
    | CreateResult.createFailed e =>
      { result := some (), error := some e, submitted := some j, eventEmitted := false }
    | CreateResult.created =>
      { result := none, error := none, submitted := some j, eventEmitted := true }
  | GetResult.errOther e =>
    { result := some (), error := some e, submitted := none, eventEmitted := false }
  | GetResult.found _ =>
    { result := none, error := none, submitted := none, eventEmitted := false }

/-- The cluster state: the stored jobs keyed by (name, namespace). -/
abbrev ClusterState := List ((String × String) × Job)

def lookupJob : ClusterState → String × String → Option Job
  | [], _ => none
  | (k, j) :: rest, key => if k = key then some j else lookupJob rest key

/-- A fault-free cluster Get: found when the identity is stored, not-found
otherwise. -/
def clusterGet (s : ClusterState) (name ns : String) : GetResult :=
  match lookupJob s (name, ns) with
  | some j => GetResult.found j
  | none => GetResult.errNotFound

/-- A fault-free cluster Create: the platform enforces uniqueness of
(name, namespace), so creating an existing identity fails with an
already-exists error; otherwise the job is stored. -/
def clusterCreate (s : ClusterState) (j : Job) : ClusterState × CreateResult :=
  match lookupJob s (j.name, j.ns) with
  | some _ => (s, CreateResult.createFailed "AlreadyExists")
  | none => (((j.name, j.ns), j) :: s, CreateResult.created)

/-- `ensureJob` run against the concrete cluster state: Get is keyed by the
job name and the instance namespace exactly as in the source, and Create
submits the built job. Returns the new cluster state and the outcome. -/
def ensureJobRun (s : ClusterState) (instNs : String) (j : Job) :
    ClusterState × EnsureOutcome :=
  match clusterGet s j.name instNs with
  | GetResult.errNotFound =>
    let sc := clusterCreate s j
    (sc.1, ensureJob j GetResult.errNotFound sc.2)
  | g => (s, ensureJob j g CreateResult.created)

/-- A plain desired state: count 3 and every optional field absent. -/
def sampleSpec : LoadTestSpec :=
  { count := 3, image := "", args := none, resources := none,
    secretEnvSource := "", secretMount := none, usersFile := "" }

def sampleLoadTest : LoadTest :=
  { name := "test-a", ns := "default", spec := sampleSpec }

def sampleJob : Job := job [] sampleLoadTest

/-- Override map fixing cpu, as a concrete merge input. -/
def overrideQuota : ResourceList := [("cpu", "1")]

/-- Default map carrying cpu and memory, as a concrete merge input. -/
def defaultQuota : ResourceList := [("cpu", "2"), ("memory", "4Gi")]

/-- C4: MergePreservingExistingKeys keeps every key already bound in dest
unchanged, binds a key absent from dest exactly to what src binds it to
(so it adds only the keys of src missing from dest), maps nil and nil to
nil, and maps a nil dest with src X to a map key-for-key equal to X. The
source loop writes only into dest, so src is never modified; in this
value-level embedding that clause is inherent. -/
theorem MergePreservingExistingKeys_spec (d X : ResourceList)
    (s : Option ResourceList) (k : ResourceName) (q : Quantity) :
    (lookupKey k d = some q →
        olookup (MergePreservingExistingKeys (some d) s) k = some q) ∧
    (lookupKey k d = none →
        olookup (MergePreservingExistingKeys (some d) s) k = olookup s k) ∧
    MergePreservingExistingKeys none none = none ∧
    olookup (MergePreservingExistingKeys none (some X)) k = lookupKey k X := by
  refine ⟨?_, ?_, rfl, ?_⟩
  · intro h
    cases s with
    | none => simpa [MergePreservingExistingKeys, olookup] using h
    | some s' =>
      simpa [MergePreservingExistingKeys, olookup] using
        foldl_addIfAbsent_present s' k q d h
  · intro h
    cases s with
    | none => simpa [MergePreservingExistingKeys, olookup] using h
    | some s' =>
      simpa [MergePreservingExistingKeys, olookup] using
        foldl_addIfAbsent_absent s' k d h
  · simpa [MergePreservingExistingKeys, olookup] using
      foldl_addIfAbsent_absent X k [] rfl

/-- C4 witness: the merge of a cpu-only override with the cpu/memory
defaults, evaluated at the kept key cpu and the filled key memory, plus
both nil cases. -/
theorem MergePreservingExistingKeys_spec_witness :
    (lookupKey "cpu" overrideQuota = some "1" ∧
      olookup (MergePreservingExistingKeys (some overrideQuota) (some defaultQuota))
        "cpu" = some "1") ∧
    (lookupKey "memory" overrideQuota = none ∧
      olookup (MergePreservingExistingKeys (some overrideQuota) (some defaultQuota))
        "memory" = olookup (some defaultQuota) "memory") ∧
    MergePreservingExistingKeys none none = none ∧
    olookup (MergePreservingExistingKeys none (some defaultQuota)) "cpu"
      = lookupKey "cpu" defaultQuota :=
  ⟨⟨rfl, (MergePreservingExistingKeys_spec overrideQuota defaultQuota
      (some defaultQuota) "cpu" "1").1 rfl⟩,
   ⟨rfl, (MergePreservingExistingKeys_spec overrideQuota defaultQuota
      (some defaultQuota) "memory" "1").2.1 rfl⟩,
   (MergePreservingExistingKeys_spec overrideQuota defaultQuota
      (some defaultQuota) "memory" "1").2.2.1,
   (MergePreservingExistingKeys_spec overrideQuota defaultQuota
      (some defaultQuota) "cpu" "1").2.2.2⟩

theorem toInt32_of_lt {n : Nat} (h : n < 2 ^ 31) : toInt32 n = (n : Int) := by
  have h32 : n < 2 ^ 32 := h.trans (by norm_num)
  unfold toInt32
  rw [Nat.mod_eq_of_lt h32]
  exact if_pos h

/-- A desired state whose count does not fit in 32 bits. -/
def overflowLoadTest : LoadTest :=
  { name := "big", ns := "default",
    spec := { sampleSpec with count := 2147483648 } }

/-- C3 counterexample: at count = 2^31 the int32 conversion in the builder
wraps, so parallelism is -2^31 and not max(count, 1). -/
theorem job_parallelism_overflow_counterexample :
    (job [] overflowLoadTest).parallelism
        ≠ ((max overflowLoadTest.spec.count 1 : Nat) : Int) ∧
    (job [] overflowLoadTest).parallelism = -2147483648 := by
  constructor
  · decide
  · decide

/-- C3 (amended): for every desired state whose count is below 2^31 (the
range the int32 parallelism cell can carry), the built unit has
parallelism = completions = max(count, 1); in particular count 0 gives 1
and a positive count gives the count. -/
theorem job_parallelism_completions_max (telemetry : List EnvVar)
    (v : LoadTest) (h : v.spec.count < 2 ^ 31) :
    (job telemetry v).parallelism = ((max v.spec.count 1 : Nat) : Int) ∧
    (job telemetry v).completions = ((max v.spec.count 1 : Nat) : Int) := by
  have hp : (job telemetry v).parallelism
      = if v.spec.count > 0 then toInt32 v.spec.count else 1 := by
    by_cases hc : v.spec.count > 0 <;> simp [job, hc]
  have hcm : (job telemetry v).completions
      = if v.spec.count > 0 then toInt32 v.spec.count else 1 := by
    by_cases hc : v.spec.count > 0 <;> simp [job, hc]
  rw [hp, hcm]
  rcases Nat.eq_zero_or_pos v.spec.count with h0 | hpos
  · constructor <;> simp [h0]
  · rw [if_pos hpos, toInt32_of_lt h, max_eq_left hpos]
    exact ⟨rfl, rfl⟩

/-- C3 witness: the sample desired state with count 3 builds a unit with
parallelism = completions = 3. -/
theorem job_parallelism_completions_max_witness :
    sampleLoadTest.spec.count < 2 ^ 31 ∧
    ((job [] sampleLoadTest).parallelism
        = ((max sampleLoadTest.spec.count 1 : Nat) : Int) ∧
     (job [] sampleLoadTest).completions
        = ((max sampleLoadTest.spec.count 1 : Nat) : Int)) :=
  ⟨by decide, job_parallelism_completions_max [] sampleLoadTest (by decide)⟩

/-- A desired state that sets args explicitly to the empty list. -/
def emptyArgsLoadTest : LoadTest :=
  { name := "empty-args", ns := "default",
    spec := { sampleSpec with args := some [] } }

/-- C5 counterexample: when args is set to an empty list the builder keeps
the empty list (the source only checks the field against nil), while the
claim as stated demands the default list containing help. -/
theorem job_args_empty_override_counterexample :
    emptyArgsLoadTest.spec.args = some [] ∧
    (theContainer (job [] emptyArgsLoadTest)).args = [] ∧
    (theContainer (job [] emptyArgsLoadTest)).args ≠ ["help"] := by
  refine ⟨rfl, rfl, ?_⟩
  decide

/-- C5 (amended): the container image is the explicit override whenever it
is non-empty and the fixed system default otherwise; the args are the
explicit override whenever the field is present, even when it is the empty
list, and the single-element default list containing help when the field
is absent. -/
theorem job_image_args_selection (telemetry : List EnvVar) (v : LoadTest) :
    (theContainer (job telemetry v)).image
        = (if v.spec.image ≠ "" then v.spec.image else WorkerImage) ∧
    (theContainer (job telemetry v)).args = v.spec.args.getD ["help"] := by
  constructor
  · rfl
  · cases h : v.spec.args <;> simp [job, theContainer, h]

/-- C6: the built unit always has backoffLimit 0. -/
theorem job_backoffLimit_zero (telemetry : List EnvVar) (v : LoadTest) :
    (job telemetry v).backoffLimit = 0 := rfl

/-- C7: when a secret mount is requested but usersFile is empty, the unit
is still fully built, with the secret-backed volume and its mount present,
and with the path environment variable holding the mount point followed by
a slash and the empty filename. -/
theorem job_secretMount_emptyUsersFile (telemetry : List EnvVar)
    (v : LoadTest) (sm : SecretMount)
    (hsm : v.spec.secretMount = some sm) (hu : v.spec.usersFile = "") :
    (job telemetry v).template.spec.volumes
        = [{ name := sm.name, secretName := sm.name }] ∧
    (theContainer (job telemetry v)).volumeMounts
        = [{ name := sm.name, mountPath := sm.mountPoint }] ∧
    (theContainer (job telemetry v)).env
        = [workerIdEnvVar,
           { name := "USERS_PAYLOAD_PATH",
             value := EnvVarValue.lit (sm.mountPoint ++ "/" ++ "") }]
          ++ telemetry := by
  refine ⟨?_, ?_, ?_⟩ <;> simp [job, theContainer, hsm, hu]

/-- A desired state requesting a secret mount while leaving usersFile
empty. -/
def secretMountLoadTest : LoadTest :=
  { name := "sm", ns := "default",
    spec := { sampleSpec with
                secretMount := some { name := "creds", mountPoint := "/data" } } }

/-- C7 witness: the secret-mount desired state with empty usersFile builds
a unit carrying the creds volume, its mount at /data, and a path variable
whose value is the bare mount point followed by a slash. -/
theorem job_secretMount_emptyUsersFile_witness :
    secretMountLoadTest.spec.secretMount
        = some { name := "creds", mountPoint := "/data" } ∧
    secretMountLoadTest.spec.usersFile = "" ∧
    ((job [] secretMountLoadTest).template.spec.volumes
        = [{ name := "creds", secretName := "creds" }] ∧
     (theContainer (job [] secretMountLoadTest)).volumeMounts
        = [{ name := "creds", mountPath := "/data" }] ∧
     (theContainer (job [] secretMountLoadTest)).env
        = [workerIdEnvVar,
           { name := "USERS_PAYLOAD_PATH",
             value := EnvVarValue.lit ("/data" ++ "/" ++ "") }] ++ []) :=
  ⟨rfl, rfl,
   job_secretMount_emptyUsersFile [] secretMountLoadTest
     { name := "creds", mountPoint := "/data" } rfl rfl⟩

/-- C8: the label scheme always yields exactly the three fixed keys with
test-name bound to the object name and part-of bound to the fixed constant,
for any component string; the unit-level label set uses the worker-master
component tag and the pod-template label set uses the worker component
tag. -/
theorem job_label_sets (telemetry : List EnvVar) (v : LoadTest) :
    (∀ component : String,
        labels v component
          = [("artillery.io/test-name", v.name),
             ("artillery.io/component", component),
             ("artillery.io/part-of", "loadtest")]) ∧
    (job telemetry v).labels = labels v "loadtest-worker-master" ∧
    (job telemetry v).template.labels = labels v "loadtest-worker" :=
  ⟨fun _ => rfl, rfl, rfl⟩

/-- C10: without a secret mount the built unit has no volumes and no volume
mounts, the container environment is exactly the WORKER_ID entry followed
by the telemetry entries (so the builder adds no users-payload-path
variable, whatever usersFile holds), and with an empty secretEnvSource the
env-from-secret list is empty. -/
theorem job_no_secretMount (telemetry : List EnvVar) (v : LoadTest)
    (h : v.spec.secretMount = none) :
    (job telemetry v).template.spec.volumes = [] ∧
    (theContainer (job telemetry v)).volumeMounts = [] ∧
    (theContainer (job telemetry v)).env = workerIdEnvVar :: telemetry ∧
    (∀ e ∈ (theContainer (job telemetry v)).env,
        e.name = "USERS_PAYLOAD_PATH" → e ∈ telemetry) ∧
    (v.spec.secretEnvSource = "" → (theContainer (job telemetry v)).envFrom = []) := by
  have henv : (theContainer (job telemetry v)).env = workerIdEnvVar :: telemetry := by
    simp [job, theContainer, h]
  refine ⟨by simp [job, theContainer, h], by simp [job, theContainer, h],
    henv, ?_, ?_⟩
  · intro e he hn
    rw [henv] at he
    rcases List.mem_cons.mp he with rfl | hmem
    · exact absurd hn (by decide)
    · exact hmem
  · intro hs
    simp [job, theContainer, hs]

/-- C10 witness: the plain sample desired state (no secret mount, empty
secretEnvSource, empty telemetry) builds a unit with no volumes, no
mounts, the WORKER_ID entry alone, and no env-from entries. -/
theorem job_no_secretMount_witness :
    sampleLoadTest.spec.secretMount = none ∧
    sampleLoadTest.spec.secretEnvSource = "" ∧
    (job [] sampleLoadTest).template.spec.volumes = [] ∧
    (theContainer (job [] sampleLoadTest)).volumeMounts = [] ∧
    (theContainer (job [] sampleLoadTest)).env = [workerIdEnvVar] ∧
    (theContainer (job [] sampleLoadTest)).envFrom = [] :=
  ⟨rfl, rfl,
   (job_no_secretMount [] sampleLoadTest rfl).1,
   (job_no_secretMount [] sampleLoadTest rfl).2.1,
   (job_no_secretMount [] sampleLoadTest rfl).2.2.1,
   (job_no_secretMount [] sampleLoadTest rfl).2.2.2.2 rfl⟩

/-- C1: when the lookup reports not-found, ensureJob submits the built
unit; if the submission succeeds it returns nil result and nil error, if
the submission fails it returns that error unmodified, and when the lookup
fails with any error other than not-found it returns that error unmodified
without submitting anything. -/
theorem ensureJob_notFound_and_error_propagation (j : Job) (e : String)
    (c : CreateResult) :
    ensureJob j GetResult.errNotFound CreateResult.created
        = { result := none, error := none, submitted := some j,
            eventEmitted := true } ∧
    ensureJob j GetResult.errNotFound (CreateResult.createFailed e)
        = { result := some (), error := some e, submitted := some j,
            eventEmitted := false } ∧
    ensureJob j (GetResult.errOther e) c
        = { result := some (), error := some e, submitted := none,
            eventEmitted := false } :=
  ⟨rfl, rfl, rfl⟩

/-- C2: whenever the lookup succeeds, ensureJob submits nothing, leaves the
cluster unchanged and returns the nil no-op result; and starting from a
cluster without the unit, a first call submits the built unit and a second
call against the same desired state observes it and performs no second
creation. -/
theorem ensureJob_idempotent (s : ClusterState) (instNs : String) (jb : Job)
    (telemetry : List EnvVar) (v : LoadTest) :
    (∀ j', lookupJob s (jb.name, instNs) = some j' →
        ensureJobRun s instNs jb
          = (s, { result := none, error := none, submitted := none,
                  eventEmitted := false })) ∧
    (lookupJob s (v.name, v.ns) = none →
        (ensureJobRun s v.ns (job telemetry v)).2.submitted
            = some (job telemetry v) ∧
        ensureJobRun (ensureJobRun s v.ns (job telemetry v)).1 v.ns
            (job telemetry v)
          = ((ensureJobRun s v.ns (job telemetry v)).1,
             { result := none, error := none, submitted := none,
               eventEmitted := false })) := by
  constructor
  · intro j' h
    simp [ensureJobRun, clusterGet, h, ensureJob]
  · intro h
    have hname : (job telemetry v).name = v.name := rfl
    have hns : (job telemetry v).ns = v.ns := rfl
    have hget : clusterGet s (job telemetry v).name v.ns
        = GetResult.errNotFound := by
      simp [clusterGet, hname, h]
    have hcreate : clusterCreate s (job telemetry v)
        = (((v.name, v.ns), job telemetry v) :: s, CreateResult.created) := by
      simp [clusterCreate, hname, hns, h]
    have hrun1 : ensureJobRun s v.ns (job telemetry v)
        = (((v.name, v.ns), job telemetry v) :: s,
           { result := none, error := none,
             submitted := some (job telemetry v), eventEmitted := true }) := by
      simp [ensureJobRun, hget, hcreate, ensureJob]
    constructor
    · rw [hrun1]
    · rw [hrun1]
      have hget2 : clusterGet (((v.name, v.ns), job telemetry v) :: s)
          (job telemetry v).name v.ns = GetResult.found (job telemetry v) := by
        simp [clusterGet, lookupJob, hname]
      simp [ensureJobRun, hget2, ensureJob]

/-- The cluster state already holding the sample built unit. -/
def presentState : ClusterState :=
  [((sampleLoadTest.name, sampleLoadTest.ns), sampleJob)]

/-- C2 witness: against a cluster already holding the sample unit the call
is a no-op, and from the empty cluster the first call submits the sample
unit while the second call creates nothing and leaves the state alone. -/
theorem ensureJob_idempotent_witness :
    ensureJobRun presentState sampleLoadTest.ns sampleJob
        = (presentState,
           { result := none, error := none, submitted := none,
             eventEmitted := false }) ∧
    (ensureJobRun [] sampleLoadTest.ns sampleJob).2.submitted
        = some sampleJob ∧
    ensureJobRun (ensureJobRun [] sampleLoadTest.ns sampleJob).1
        sampleLoadTest.ns sampleJob
      = ((ensureJobRun [] sampleLoadTest.ns sampleJob).1,
         { result := none, error := none, submitted := none,
           eventEmitted := false }) :=
  ⟨(ensureJob_idempotent presentState sampleLoadTest.ns sampleJob []
      sampleLoadTest).1 sampleJob rfl,
   (ensureJob_idempotent [] sampleLoadTest.ns sampleJob []
      sampleLoadTest).2 rfl⟩

/-- C9: both success paths of ensureJob — the unit was found, or the unit
was absent and its creation succeeded — return a nil reconcile result
together with a nil error, and over every lookup and submission outcome
the result pointer is non-nil exactly when an error is returned. -/
theorem ensureJob_success_nil_and_result_iff_error (j j' : Job)
    (g : GetResult) (c : CreateResult) :
    ensureJob j (GetResult.found j') c
        = { result := none, error := none, submitted := none,
            eventEmitted := false } ∧
    ensureJob j GetResult.errNotFound CreateResult.created
        = { result := none, error := none, submitted := some j,
            eventEmitted := true } ∧
    (((ensureJob j g c).result).isSome ↔ ((ensureJob j g c).error).isSome) := by
  refine ⟨rfl, rfl, ?_⟩
  cases g <;> cases c <;> simp [ensureJob]

end ArtilleryOperator
